import Mathlib

/-!
Shallow embedding of the Phasor runtime Value type
(src/Executable/pmake/pmake_main.cpp, the Runtime/Value.hpp part).

Modelling choices:
- The C++ class Value is a std::variant over monostate, bool, int64_t,
  double, std::string, shared_ptr of StructInstance, shared_ptr of
  ArrayInstance.  We model it as an inductive type.  int64_t is modelled
  as the unbounded Int (signed overflow is undefined behaviour in the
  source, so no wraparound is modelled); double is modelled exactly as
  the rational number Rat (IEEE rounding and NaN are outside the model).
- Struct and array payloads are stored inline.  The operations the claims
  need (equality, getField, setField, hasField, toString, arithmetic)
  either never dereference the shared pointer (equality and toString on
  structs) or only read or functionally update the pointed-to instance,
  so a heap is not needed: setField returns the updated Value.
  Comparing a Value with itself in the model corresponds to comparing a
  Value with itself (identical handles) in the source.
- std::unordered_map from field name to Value is modelled as an
  association list with unique keys reachable through lookupField and
  setFieldList below; find is lookupField, operator[] assignment is
  setFieldList (insert or overwrite).
- Throwing std::runtime_error with message m is modelled as
  Except.error m; the error kinds of the specification map to the
  messages as follows: DivisionByZero is "Division by zero" or
  "Modulo by zero", UnsupportedOperand is the "Cannot ... these value
  types" and "Modulo requires integer operands" messages, WrongType is
  the "... called on non-struct value" messages.
-/

namespace Phasor

/-- enum class ValueType -/
inductive ValueType where
  | Null
  | Bool
  | Int
  | Float
  | String
  | Struct
  | Array
deriving DecidableEq, Repr

/-- class Value: std::variant over the seven alternatives.  Struct payload
is the StructInstance (structName and fields), array payload is the
vector of elements. -/
inductive Value where
  | null : Value
  | bool (b : Bool) : Value
  | int (i : Int) : Value
  | float (f : Rat) : Value
  | str (s : String) : Value
  | struct (structName : String) (fields : List (String × Value)) : Value
  | array (elems : List Value) : Value
deriving Repr

namespace Value

/-- Value::getType -/
def getType : Value → ValueType
  | .null => .Null
  | .bool _ => .Bool
  | .int _ => .Int
  | .float _ => .Float
  | .str _ => .String
  | .struct _ _ => .Struct
  | .array _ => .Array

/-- Value::isNull -/
def isNull (v : Value) : Bool := v.getType == .Null

/-- Value::isBool -/
def isBool (v : Value) : Bool := v.getType == .Bool

/-- Value::isInt -/
def isInt (v : Value) : Bool := v.getType == .Int

/-- Value::isFloat -/
def isFloat (v : Value) : Bool := v.getType == .Float

/-- Value::isString -/
def isString (v : Value) : Bool := v.getType == .String

/-- Value::isNumber -/
def isNumber (v : Value) : Bool := v.isInt || v.isFloat

/-- Value::isArray (holds_alternative on the array pointer) -/
def isArray : Value → Bool
  | .array _ => true
  | _ => false

/-- Value::isStruct (holds_alternative on the struct pointer) -/
def isStruct : Value → Bool
  | .struct _ _ => true
  | _ => false

/-- Truncation of a double toward zero when cast to int64_t, under the
rational model of double: quotient of numerator by denominator,
truncated toward zero (Int.tdiv). -/
def ratTrunc (q : Rat) : Int := q.num.tdiv (q.den : Int)

/-- Value::asInt: the Int payload if isInt, the truncated Float payload
if isFloat, else 0. -/
def asInt : Value → Int
  | .int i => i
  | .float f => ratTrunc f
  | _ => 0

/-- Value::asFloat: the Float payload if isFloat, the widened Int payload
if isInt (exact under the rational model), else 0.0. -/
def asFloat : Value → Rat
  | .float f => f
  | .int i => (i : Rat)
  | _ => 0

/-- Value::operator+ -/
def add (a other : Value) : Except String Value :=
  if a.isInt && other.isInt then .ok (.int (a.asInt + other.asInt))
  else if a.isNumber && other.isNumber then .ok (.float (a.asFloat + other.asFloat))
  else if a.isString && other.isString then
    match a, other with
    | .str s, .str t => .ok (.str (s ++ t))
    | _, _ => .error "unreachable"
  else .error "Cannot add these value types"

/-- Value::operator- (binary) -/
def sub (a other : Value) : Except String Value :=
  if a.isInt && other.isInt then .ok (.int (a.asInt - other.asInt))
  else if a.isNumber && other.isNumber then .ok (.float (a.asFloat - other.asFloat))
  else .error "Cannot subtract these value types"

/-- Value::operator* -/
def mul (a other : Value) : Except String Value :=
  if a.isInt && other.isInt then .ok (.int (a.asInt * other.asInt))
  else if a.isNumber && other.isNumber then .ok (.float (a.asFloat * other.asFloat))
  else .error "Cannot multiply these value types"

/-- Value::operator/ : int64_t division truncates toward zero (Int.tdiv). -/
def div (a other : Value) : Except String Value :=
  if a.isInt && other.isInt then
    if other.asInt == 0 then .error "Division by zero"
    else .ok (.int (a.asInt.tdiv other.asInt))
  else if a.isNumber && other.isNumber then
    if other.asFloat == 0 then .error "Division by zero"
    else .ok (.float (a.asFloat / other.asFloat))
  else .error "Cannot divide these value types"

/-- Value::operator% : int64_t remainder has the sign of the dividend
(Int.tmod). -/
def mod (a other : Value) : Except String Value :=
  if a.isInt && other.isInt then
    if other.asInt == 0 then .error "Modulo by zero"
    else .ok (.int (a.asInt.tmod other.asInt))
  else .error "Modulo requires integer operands"

/-- Value::operator- (unary) -/
def neg (a : Value) : Except String Value :=
  if a.isInt then .ok (.int (-a.asInt))
  else if a.isFloat then .ok (.float (-a.asFloat))
  else .error "Cannot negate this value type"

/-- Value::isTruthy.  In the string branch the source calls asString(),
which on a String value returns the payload itself, so the payload is
used directly here. -/
def isTruthy : Value → Bool
  | .null => false
  | .bool b => b
  | .int i => i != 0
  | .float f => f != 0
  | .str s =>
    if s == "true" || s == "1" then true
    else if s == "false" || s == "0" then false
    else !s.isEmpty
  | _ => false

/-- Value::operator! -/
def lnot (a : Value) : Value := .bool (!a.isTruthy)

/-- Value::logicalAnd -/
def logicalAnd (a other : Value) : Value := .bool (a.isTruthy && other.isTruthy)

/-- Value::logicalOr -/
def logicalOr (a other : Value) : Value := .bool (a.isTruthy || other.isTruthy)

end Value

mutual

/-- Value::operator== .  The source first returns false when the tags
differ; then the Null, Bool, Int, Float and String branches compare
payloads, the Array branch compares the two vectors elementwise
(std::vector operator== on vector of Value), and a Struct operand falls
through to the final return false — struct handles and struct contents
are never compared. -/
def Value.eq : Value → Value → Bool
  | .null, .null => true
  | .bool x, .bool y => x == y
  | .int x, .int y => x == y
  | .float x, .float y => x == y
  | .str x, .str y => x == y
  | .array xs, .array ys => Value.eqList xs ys
  | .struct _ _, .struct _ _ => false
  | _, _ => false

/-- std::vector operator== over vector of Value: equal lengths and
elementwise Value::operator==. -/
def Value.eqList : List Value → List Value → Bool
  | [], [] => true
  | x :: xs, y :: ys => Value.eq x y && Value.eqList xs ys
  | _, _ => false

end

/-- Value::operator!= -/
def Value.ne (a other : Value) : Bool := !(Value.eq a other)

/-- Models std::to_string(double) (fixed notation, six decimal places,
rounded to nearest) on the rational model of double. -/
def Value.floatRepr (q : Rat) : String :=
  let sign := if q < 0 then "-" else ""
  let n : Int := ⌊|q| * 1000000 + 1 / 2⌋
  let ip := n / 1000000
  let fp := (n % 1000000).toNat
  let fpDigits := ToString.toString fp
  let pad := String.mk (List.replicate (6 - fpDigits.length) (Char.ofNat 48))
  sign ++ ToString.toString ip ++ "." ++ pad ++ fpDigits

mutual

/-- Value::toString.  The Struct case is the final fall-through
return "unknown".  The Float case renders the rational model of the
double with the fixed six-decimal format of std::to_string(double). -/
def Value.toString : Value → String
  | .null => "null"
  | .bool b => if b then "true" else "false"
  | .int i => ToString.toString i
  | .float f => Value.floatRepr f
  | .str s => s
  | .array elems => "[" ++ Value.toStringList elems ++ "]"
  | .struct _ _ => "unknown"

/-- The element loop of Value::toString for arrays: elements rendered by
toString, separated by comma and space. -/
def Value.toStringList : List Value → String
  | [] => ""
  | [x] => Value.toString x
  | x :: y :: xs => Value.toString x ++ ", " ++ Value.toStringList (y :: xs)

end

/-- Value::asString -/
def Value.asString : Value → String
  | .str s => s
  | v => Value.toString v

/-- unordered_map find on the field map (association list model). -/
def lookupField : List (String × Value) → String → Option Value
  | [], _ => none
  | (k, w) :: rest, n => if k == n then some w else lookupField rest n

/-- unordered_map operator[] assignment on the field map: overwrite the
existing entry for the key or append a new one. -/
def setFieldList : List (String × Value) → String → Value → List (String × Value)
  | [], n, v => [(n, v)]
  | (k, w) :: rest, n, v =>
    if k == n then (k, v) :: rest else (k, w) :: setFieldList rest n v

/-- Value::createStruct: a new instance with the given name and an empty
field map. -/
def Value.createStruct (name : String) : Value := .struct name []

/-- Value::createArray -/
def Value.createArray (elements : List Value := []) : Value := .array elements

/-- Value::getField: throws on a non-struct receiver; on a struct,
find the field and return Null when absent. -/
def Value.getField : Value → String → Except String Value
  | .struct _ fields, name =>
    match lookupField fields name with
    | none => .ok .null
    | some v => .ok v
  | _, _ => .error "getField() called on non-struct value"

/-- Value::setField: throws on a non-struct receiver; on a struct,
insert or overwrite the field (the updated Value is returned, standing
for the in-place mutation of the shared instance). -/
def Value.setField : Value → String → Value → Except String Value
  | .struct nm fields, name, v => .ok (.struct nm (setFieldList fields name v))
  | _, _, _ => .error "setField() called on non-struct value"

/-- Value::hasField: returns false on a non-struct receiver (the source
does NOT throw here), else whether the field map contains the name. -/
def Value.hasField : Value → String → Bool
  | .struct _ fields, name => (lookupField fields name).isSome
  | _, _ => false

mutual

/-- A Value containing no Struct at any depth (auxiliary notion used to
state where equality is reflexive). -/
def Value.structFree : Value → Bool
  | .null => true
  | .bool _ => true
  | .int _ => true
  | .float _ => true
  | .str _ => true
  | .struct _ _ => false
  | .array xs => Value.structFreeList xs

/-- structFree on every element of a list. -/
def Value.structFreeList : List Value → Bool
  | [] => true
  | x :: xs => Value.structFree x && Value.structFreeList xs

end

/-! Helper lemmas (shared between the claim theorems). -/

/-- isInt implies isNumber. -/
theorem Value.isNumber_of_isInt {v : Value} (h : v.isInt = true) : v.isNumber = true := by
  simp [Value.isNumber, h]

/-- Equality returns false whenever the tags differ (the first check of
Value::operator==). -/
theorem Value.eq_false_of_getType_ne (a b : Value) (h : a.getType ≠ b.getType) :
    Value.eq a b = false := by
  cases a <;> cases b <;> simp_all [Value.eq, Value.getType]

mutual

/-- Equality is reflexive on struct-free Values. -/
theorem Value.eq_refl_of_structFree : ∀ v : Value, Value.structFree v = true → Value.eq v v = true
  | .null, _ => rfl
  | .bool _, _ => by simp [Value.eq]
  | .int _, _ => by simp [Value.eq]
  | .float _, _ => by simp [Value.eq]
  | .str _, _ => by simp [Value.eq]
  | .struct _ _, h => by simp [Value.structFree] at h
  | .array xs, h => by
    simp only [Value.eq]
    exact Value.eqList_refl_of_structFree xs (by simpa [Value.structFree] using h)

/-- Elementwise equality is reflexive on lists of struct-free Values. -/
theorem Value.eqList_refl_of_structFree :
    ∀ xs : List Value, Value.structFreeList xs = true → Value.eqList xs xs = true
  | [], _ => rfl
  | x :: xs, h => by
    simp only [Value.structFreeList, Bool.and_eq_true] at h
    simp only [Value.eqList, Bool.and_eq_true]
    exact ⟨Value.eq_refl_of_structFree x h.1, Value.eqList_refl_of_structFree xs h.2⟩

end

/-- Characterization of elementwise list equality: equal lengths and
equal elements at every index. -/
theorem Value.eqList_iff : ∀ xs ys : List Value,
    Value.eqList xs ys = true ↔
      (xs.length = ys.length ∧ ∀ (i : Nat) (h1 : i < xs.length) (h2 : i < ys.length),
        Value.eq (xs.get ⟨i, h1⟩) (ys.get ⟨i, h2⟩) = true)
  | [], [] => by simp [Value.eqList]
  | [], _ :: _ => by simp [Value.eqList]
  | _ :: _, [] => by simp [Value.eqList]
  | x :: xs, y :: ys => by
    simp only [Value.eqList, Bool.and_eq_true, Value.eqList_iff xs ys, List.length_cons]
    constructor
    · rintro ⟨hxy, hlen, hall⟩
      refine ⟨by omega, ?_⟩
      intro i h1 h2
      cases i with
      | zero => exact hxy
      | succ n => exact hall n (by omega) (by omega)
    · rintro ⟨hlen, hall⟩
      refine ⟨hall 0 (by omega) (by omega), by omega, ?_⟩
      intro i h1 h2
      exact hall (i + 1) (by omega) (by omega)

/-- ratTrunc computes the floor on nonnegative rationals. -/
theorem Value.ratTrunc_eq_floor (f : Rat) (h : 0 ≤ f) : Value.ratTrunc f = ⌊f⌋ := by
  rw [Rat.floor_def]
  exact Int.tdiv_eq_ediv (Rat.num_nonneg.mpr h) (by positivity)

/-- ratTrunc computes the ceiling on nonpositive rationals; together with
ratTrunc_eq_floor this is truncation toward zero. -/
theorem Value.ratTrunc_eq_ceil (f : Rat) (h : f ≤ 0) : Value.ratTrunc f = ⌈f⌉ := by
  have h2 : 0 ≤ -f := by linarith
  have hneg : Value.ratTrunc (-f) = ⌊-f⌋ := Value.ratTrunc_eq_floor (-f) h2
  have hrt : Value.ratTrunc (-f) = -Value.ratTrunc f := by
    simp [Value.ratTrunc, Rat.num_neg_eq_neg_num, Rat.den_neg_eq_den, Int.neg_tdiv]
  rw [hrt, Int.floor_neg] at hneg
  omega

/-! Claim theorems. -/

/-- Claim C1, counterexample: comparing a Record value with itself (in the
source this is a comparison of identical handles) yields false, so
operator== is not reflexive on Records and identical handles do not
compare equal: the Struct case of operator== falls through to the final
return false without ever inspecting the handles. -/
theorem claim1_counterexample :
    Value.eq (Value.struct "T" []) (Value.struct "T" []) = false := rfl

/-- Claim C1 as amended: operator== is reflexive on every Value that
contains no Record at any depth (under the exact rational model of Float,
which has no NaN), and Record-to-Record comparison always yields
not-equal, even when the two sides are the same instance. -/
theorem claim1_equality_reflexivity :
    (∀ v : Value, Value.structFree v = true → Value.eq v v = true)
  ∧ (∀ (nm : String) (fs : List (String × Value)) (nm2 : String) (fs2 : List (String × Value)),
      Value.eq (Value.struct nm fs) (Value.struct nm2 fs2) = false) :=
  ⟨Value.eq_refl_of_structFree, fun _ _ _ _ => rfl⟩

/-- Claim C1 witness: reflexivity instantiated on a concrete struct-free
Value. -/
theorem claim1_witness :
    Value.eq (Value.array [Value.int 1, Value.str "a"]) (Value.array [Value.int 1, Value.str "a"]) = true :=
  claim1_equality_reflexivity.1 (Value.array [Value.int 1, Value.str "a"]) rfl

/-- Claim C2, counterexample: hasField invoked on a non-Record Value does
not fail with WrongType — the source returns false for a non-struct
receiver (getField and setField do throw, hasField does not). -/
theorem claim2_counterexample : Value.hasField (Value.int 1) "x" = false := rfl

/-- Claim C2 as amended: getField and setField fail with the WrongType
error on a non-Record receiver, hasField instead returns false on a
non-Record receiver without failing, and getField on a Record returns
Null (no error) when the field name is absent from the field map. -/
theorem claim2_record_operations :
    (∀ (v : Value) (n : String), v.isStruct = false →
      Value.getField v n = .error "getField() called on non-struct value")
  ∧ (∀ (v : Value) (n : String) (x : Value), v.isStruct = false →
      Value.setField v n x = .error "setField() called on non-struct value")
  ∧ (∀ (v : Value) (n : String), v.isStruct = false → Value.hasField v n = false)
  ∧ (∀ (nm : String) (fs : List (String × Value)) (n : String), lookupField fs n = none →
      Value.getField (Value.struct nm fs) n = .ok Value.null) := by
  refine ⟨?_, ?_, ?_, ?_⟩
  · intro v n h
    cases v <;> first | rfl | simp [Value.isStruct] at h
  · intro v n x h
    cases v <;> first | rfl | simp [Value.isStruct] at h
  · intro v n h
    cases v <;> first | rfl | simp [Value.isStruct] at h
  · intro nm fs n h
    simp [Value.getField, h]

/-- Claim C2 witness: the four parts instantiated at concrete inputs. -/
theorem claim2_witness :
    Value.getField (Value.int 1) "x" = .error "getField() called on non-struct value"
  ∧ Value.setField Value.null "x" (Value.int 1) = .error "setField() called on non-struct value"
  ∧ Value.hasField (Value.bool true) "x" = false
  ∧ Value.getField (Value.struct "T" [("y", Value.int 2)]) "x" = .ok Value.null :=
  ⟨claim2_record_operations.1 (Value.int 1) "x" rfl,
   claim2_record_operations.2.1 Value.null "x" (Value.int 1) rfl,
   claim2_record_operations.2.2.1 (Value.bool true) "x" rfl,
   claim2_record_operations.2.2.2 "T" [("y", Value.int 2)] "x" rfl⟩

/-- Claim C3: Int divided by Int yields an Int truncated toward zero and
fails with DivisionByZero ("Division by zero") on an Int divisor 0; a
mixed or float numeric pairing yields Float division and fails with
DivisionByZero when the divisor float value is exactly 0; a non-numeric
pairing fails with UnsupportedOperand ("Cannot divide these value
types").  A zero divisor therefore never produces a value. -/
theorem claim3_division :
    (∀ i j : Int, j ≠ 0 → Value.div (Value.int i) (Value.int j) = .ok (Value.int (i.tdiv j)))
  ∧ (∀ i : Int, Value.div (Value.int i) (Value.int 0) = .error "Division by zero")
  ∧ (∀ a b : Value, a.isNumber = true → b.isNumber = true →
      ¬(a.isInt = true ∧ b.isInt = true) →
        (b.asFloat ≠ 0 → Value.div a b = .ok (Value.float (a.asFloat / b.asFloat)))
      ∧ (b.asFloat = 0 → Value.div a b = .error "Division by zero"))
  ∧ (∀ a b : Value, ¬(a.isNumber = true ∧ b.isNumber = true) →
      Value.div a b = .error "Cannot divide these value types") := by
  refine ⟨?_, ?_, ?_, ?_⟩
  · intro i j hj
    simp [Value.div, Value.isInt, Value.isNumber, Value.getType, Value.asInt, hj]
  · intro i
    simp [Value.div, Value.isInt, Value.isNumber, Value.getType, Value.asInt]
  · intro a b ha hb hni
    constructor <;> intro hz <;>
      cases a <;> cases b <;>
        simp_all [Value.div, Value.isNumber, Value.isInt, Value.isFloat, Value.getType,
          Value.asFloat]
  · intro a b h
    cases a <;> cases b <;>
      simp_all [Value.div, Value.isNumber, Value.isInt, Value.isFloat, Value.getType]

/-- Claim C3 witness: the four parts instantiated at concrete inputs. -/
theorem claim3_witness :
    Value.div (Value.int 7) (Value.int (-2)) = .ok (Value.int ((7 : Int).tdiv (-2)))
  ∧ Value.div (Value.int 5) (Value.int 0) = .error "Division by zero"
  ∧ Value.div (Value.float 1) (Value.float 2) =
      .ok (Value.float ((Value.float 1).asFloat / (Value.float 2).asFloat))
  ∧ Value.div (Value.int 1) (Value.float 0) = .error "Division by zero"
  ∧ Value.div (Value.str "a") (Value.int 1) = .error "Cannot divide these value types" :=
  ⟨claim3_division.1 7 (-2) (by decide),
   claim3_division.2.1 5,
   (claim3_division.2.2.1 (Value.float 1) (Value.float 2) rfl rfl (by simp [Value.isInt, Value.getType])).1
     (by simp [Value.asFloat]),
   (claim3_division.2.2.1 (Value.int 1) (Value.float 0) rfl rfl (by simp [Value.isInt, Value.getType])).2
     (by simp [Value.asFloat]),
   claim3_division.2.2.2 (Value.str "a") (Value.int 1)
     (by simp [Value.isNumber, Value.isInt, Value.isFloat, Value.getType])⟩

/-- Claim C4: for all Int a and b with b not 0, division and modulo
succeed with the truncated quotient and remainder of the source
(int64_t division, Int.tdiv and Int.tmod of the model) and satisfy the
consistency identity (a/b)*b + a%b = a.  Int is modelled unbounded:
signed 64-bit overflow (only a = -2^63 with b = -1) is undefined
behaviour in the source and outside the model. -/
theorem claim4_divmod_identity : ∀ a b : Int, b ≠ 0 →
    Value.div (Value.int a) (Value.int b) = .ok (Value.int (a.tdiv b))
  ∧ Value.mod (Value.int a) (Value.int b) = .ok (Value.int (a.tmod b))
  ∧ a.tdiv b * b + a.tmod b = a := by
  intro a b hb
  refine ⟨by simp [Value.div, Value.isInt, Value.isNumber, Value.getType, Value.asInt, hb],
    by simp [Value.mod, Value.isInt, Value.getType, Value.asInt, hb], ?_⟩
  exact Int.tdiv_add_tmod' a b

/-- Claim C4 witness: the identity at a = -7, b = 2. -/
theorem claim4_witness :
    Value.div (Value.int (-7)) (Value.int 2) = .ok (Value.int ((-7 : Int).tdiv 2))
  ∧ Value.mod (Value.int (-7)) (Value.int 2) = .ok (Value.int ((-7 : Int).tmod 2))
  ∧ (-7 : Int).tdiv 2 * 2 + (-7 : Int).tmod 2 = -7 :=
  claim4_divmod_identity (-7) 2 (by decide)

/-- Claim C5: modulo is defined only for Int∘Int and yields an Int; an
Int divisor 0 fails with the DivisionByZero kind (message "Modulo by
zero", same kind as division distinguished by the op name); any pairing
where either operand is not an Int fails with UnsupportedOperand
("Modulo requires integer operands"). -/
theorem claim5_modulo :
    (∀ i j : Int, j ≠ 0 → Value.mod (Value.int i) (Value.int j) = .ok (Value.int (i.tmod j)))
  ∧ (∀ i : Int, Value.mod (Value.int i) (Value.int 0) = .error "Modulo by zero")
  ∧ (∀ a b : Value, ¬(a.isInt = true ∧ b.isInt = true) →
      Value.mod a b = .error "Modulo requires integer operands") := by
  refine ⟨?_, ?_, ?_⟩
  · intro i j hj
    simp [Value.mod, Value.isInt, Value.getType, Value.asInt, hj]
  · intro i
    simp [Value.mod, Value.isInt, Value.getType, Value.asInt]
  · intro a b h
    cases a <;> cases b <;>
      simp_all [Value.mod, Value.isInt, Value.getType]

/-- Claim C5 witness: the three parts instantiated at concrete inputs,
including a Float operand rejection. -/
theorem claim5_witness :
    Value.mod (Value.int 9) (Value.int 4) = .ok (Value.int ((9 : Int).tmod 4))
  ∧ Value.mod (Value.int 9) (Value.int 0) = .error "Modulo by zero"
  ∧ Value.mod (Value.float 1) (Value.int 2) = .error "Modulo requires integer operands" :=
  ⟨claim5_modulo.1 9 4 (by decide),
   claim5_modulo.2.1 9,
   claim5_modulo.2.2 (Value.float 1) (Value.int 2)
     (by simp [Value.isInt, Value.getType])⟩

/-- Claim C6: addition dispatches by operand tags — Int+Int yields the
Int sum; two numeric operands not both Int yield the Float sum of the
promoted operands; String+String yields the concatenation; every other
pairing (Bool, Null, Record, Array operands included) fails with
UnsupportedOperand ("Cannot add these value types"). -/
theorem claim6_addition :
    (∀ i j : Int, Value.add (Value.int i) (Value.int j) = .ok (Value.int (i + j)))
  ∧ (∀ a b : Value, a.isNumber = true → b.isNumber = true →
      ¬(a.isInt = true ∧ b.isInt = true) →
        Value.add a b = .ok (Value.float (a.asFloat + b.asFloat)))
  ∧ (∀ s t : String, Value.add (Value.str s) (Value.str t) = .ok (Value.str (s ++ t)))
  ∧ (∀ a b : Value, ¬(a.isNumber = true ∧ b.isNumber = true) →
      ¬(a.isString = true ∧ b.isString = true) →
        Value.add a b = .error "Cannot add these value types") := by
  refine ⟨?_, ?_, ?_, ?_⟩
  · intro i j
    simp [Value.add, Value.isInt, Value.getType, Value.asInt]
  · intro a b ha hb hni
    cases a <;> cases b <;>
      simp_all [Value.add, Value.isNumber, Value.isInt, Value.isFloat, Value.getType,
        Value.asFloat]
  · intro s t
    simp [Value.add, Value.isInt, Value.isNumber, Value.isFloat, Value.isString, Value.getType]
  · intro a b h1 h2
    cases a <;> cases b <;>
      simp_all [Value.add, Value.isNumber, Value.isInt, Value.isFloat, Value.isString,
        Value.getType]

/-- Claim C6 witness: the four parts instantiated at concrete inputs,
with an Int operand promoted in the mixed case. -/
theorem claim6_witness :
    Value.add (Value.int 1) (Value.int 2) = .ok (Value.int 3)
  ∧ Value.add (Value.int 1) (Value.float 2) =
      .ok (Value.float ((Value.int 1).asFloat + (Value.float 2).asFloat))
  ∧ Value.add (Value.str "a") (Value.str "b") = .ok (Value.str "ab")
  ∧ Value.add (Value.bool true) (Value.bool true) = .error "Cannot add these value types" :=
  ⟨claim6_addition.1 1 2,
   claim6_addition.2.1 (Value.int 1) (Value.float 2) rfl rfl
     (by simp [Value.isInt, Value.getType]),
   claim6_addition.2.2.1 "a" "b",
   claim6_addition.2.2.2 (Value.bool true) (Value.bool true)
     (by simp [Value.isNumber, Value.isInt, Value.isFloat, Value.getType])
     (by simp [Value.isString, Value.getType])⟩

/-- Claim C7: equality of Arrays is total (a Bool-valued function in the
model), returns false when the tags differ, and two Arrays are equal
exactly when they have the same length and the elements at every common
index are equal under the same Value equality, recursively; in
particular [1,2]==[1,2], not [1,2]==[2,1], and []==[]. -/
theorem claim7_array_equality :
    (∀ a b : Value, a.getType ≠ b.getType → Value.eq a b = false)
  ∧ (∀ xs ys : List Value, Value.eq (Value.array xs) (Value.array ys) = true ↔
      (xs.length = ys.length ∧ ∀ (i : Nat) (h1 : i < xs.length) (h2 : i < ys.length),
        Value.eq (xs.get ⟨i, h1⟩) (ys.get ⟨i, h2⟩) = true))
  ∧ Value.eq (Value.array [Value.int 1, Value.int 2]) (Value.array [Value.int 1, Value.int 2]) = true
  ∧ Value.eq (Value.array [Value.int 1, Value.int 2]) (Value.array [Value.int 2, Value.int 1]) = false
  ∧ Value.eq (Value.array []) (Value.array []) = true := by
  refine ⟨Value.eq_false_of_getType_ne, ?_, rfl, rfl, rfl⟩
  intro xs ys
  simpa only [Value.eq] using Value.eqList_iff xs ys

/-- Claim C7 witness: tag mismatch instantiated concretely. -/
theorem claim7_witness : Value.eq (Value.int 1) (Value.str "a") = false :=
  claim7_array_equality.1 (Value.int 1) (Value.str "a") (by decide)

/-- Claim C8: the truthiness table — Null is false; Bool is its value;
Int is nonzero; Float is nonzero; the String literals "true" and "1"
are true, "false" and "0" are false, any other non-empty String is true
and the empty String is false; Record and Array are unconditionally
false. -/
theorem claim8_truthiness :
    Value.isTruthy Value.null = false
  ∧ (∀ b : Bool, Value.isTruthy (Value.bool b) = b)
  ∧ (∀ i : Int, (Value.isTruthy (Value.int i) = true ↔ i ≠ 0))
  ∧ (∀ f : Rat, (Value.isTruthy (Value.float f) = true ↔ f ≠ 0))
  ∧ Value.isTruthy (Value.str "true") = true
  ∧ Value.isTruthy (Value.str "1") = true
  ∧ Value.isTruthy (Value.str "false") = false
  ∧ Value.isTruthy (Value.str "0") = false
  ∧ (∀ s : String, s ≠ "true" → s ≠ "1" → s ≠ "false" → s ≠ "0" → s ≠ "" →
      Value.isTruthy (Value.str s) = true)
  ∧ Value.isTruthy (Value.str "") = false
  ∧ (∀ (nm : String) (fs : List (String × Value)), Value.isTruthy (Value.struct nm fs) = false)
  ∧ (∀ xs : List Value, Value.isTruthy (Value.array xs) = false) := by
  refine ⟨rfl, fun b => rfl, ?_, ?_, rfl, rfl, rfl, rfl, ?_, rfl, fun _ _ => rfl, fun _ => rfl⟩
  · intro i
    simp [Value.isTruthy]
  · intro f
    simp [Value.isTruthy]
  · intro s h1 h2 h3 h4 h5
    have he : s.isEmpty = false := by
      rw [Bool.eq_false_iff]
      intro hy
      exact h5 ((String.isEmpty_iff s).mp hy)
    simp [Value.isTruthy, h1, h2, h3, h4, he]

/-- Claim C8 witness: the generic non-empty String case instantiated. -/
theorem claim8_witness : Value.isTruthy (Value.str "anything-else") = true :=
  claim8_truthiness.2.2.2.2.2.2.2.2.1 "anything-else"
    (by decide) (by decide) (by decide) (by decide) (by decide)

/-- Claim C9: asInt and asFloat are total — asInt is the identity on the
Int payload and truncates a Float payload toward zero (floor of a
nonnegative payload, ceiling of a nonpositive one); asFloat is the
identity on the Float payload and widens an Int payload (exactly, under
the rational model of double); every non-numeric tag coerces to 0 and
0.0 rather than failing. -/
theorem claim9_numeric_coercions :
    (∀ i : Int, Value.asInt (Value.int i) = i)
  ∧ (∀ f : Rat, Value.asInt (Value.float f) = if 0 ≤ f then ⌊f⌋ else ⌈f⌉)
  ∧ (∀ f : Rat, Value.asFloat (Value.float f) = f)
  ∧ (∀ i : Int, Value.asFloat (Value.int i) = (i : Rat))
  ∧ Value.asInt Value.null = 0 ∧ Value.asFloat Value.null = 0
  ∧ (∀ b : Bool, Value.asInt (Value.bool b) = 0 ∧ Value.asFloat (Value.bool b) = 0)
  ∧ (∀ s : String, Value.asInt (Value.str s) = 0 ∧ Value.asFloat (Value.str s) = 0)
  ∧ (∀ (nm : String) (fs : List (String × Value)),
      Value.asInt (Value.struct nm fs) = 0 ∧ Value.asFloat (Value.struct nm fs) = 0)
  ∧ (∀ xs : List Value, Value.asInt (Value.array xs) = 0 ∧ Value.asFloat (Value.array xs) = 0) := by
  refine ⟨fun i => rfl, ?_, fun f => rfl, fun i => rfl, rfl, rfl, fun b => ⟨rfl, rfl⟩,
    fun s => ⟨rfl, rfl⟩, fun nm fs => ⟨rfl, rfl⟩, fun xs => ⟨rfl, rfl⟩⟩
  intro f
  by_cases h : 0 ≤ f
  · simp [Value.asInt, h, Value.ratTrunc_eq_floor f h]
  · simp [Value.asInt, h, Value.ratTrunc_eq_ceil f (le_of_lt (lt_of_not_ge h))]

/-- Claim C10: toString on a Record (Struct) value is total and returns
"unknown" for every Record value, whatever its type name and fields: the
Struct case is the final fall-through of Value::toString. -/
theorem claim10_struct_toString :
    ∀ (nm : String) (fs : List (String × Value)),
      Value.toString (Value.struct nm fs) = "unknown" :=
  fun _ _ => rfl

end Phasor
